import Mathlib

/-!
Shallow embedding of the GPS trajectory segmentation engine of the
"Conciliador de deslocamentos/viagens" repository (src/processor.py,
src/config.py, src/poi_data.py), together with proofs checking the
natural-language specification against it.

Conventions of the embedding:
* timestamps (`data_hora`) are integers measured in minutes, so that the
  Python expression `(t2 - t1).total_seconds() / 60` becomes plain
  subtraction; odometer readings and speeds are integers as well — the
  classifier compares and subtracts them but never divides, so an ordered
  ring is all it uses and nothing depends on fractional values;
* geographic coordinates in the place resolver are rationals, since the
  rounding to three decimals is essential there;
* raw row identifiers (`raw_id`) are naturals;
* a nullable column is an `Option`; a pandas `NaN` speed compares as
  `False` against any threshold, which is what `velGe none` returns;
* each definition mirrors one function (or one loop pass) of the source,
  keeping the source's names where Lean allows it.
-/

namespace Conciliador

/-- Configuration constant `VELOCIDADE_MOVIMENTO` (config.py:11): minimum
speed, in km/h, for a sample to count as movement. -/
def VELOCIDADE_MOVIMENTO : ℤ := 3

/-- Configuration constant `MIN_DURACAO_PERIODO` (config.py:15): minimum
duration, in minutes, for a period to stand on its own. -/
def MIN_DURACAO_PERIODO : ℤ := 5

/-- Configuration constant `GAP_CONSOLIDACAO` (config.py:19): maximum stop
gap, in minutes, that does not fragment a movement. -/
def GAP_CONSOLIDACAO : ℤ := 15

/-- Configuration constant `TEMPO_PERIODO_EM_CURSO` (config.py:23).  Note
that `classificar_deslocamentos_v5` does not actually read it: the age test
at processor.py:352 hardcodes the literal 60. -/
def TEMPO_PERIODO_EM_CURSO : ℤ := 30

/-- One raw telemetry row of `posicoes_raw` as the classifier sees it after
the JOIN in `processar_deslocamentos` (processor.py:802-817). -/
structure Amostra where
  raw_id : ℕ
  placa : String
  data_hora : ℤ
  latitude : ℤ
  longitude : ℤ
  odometro : ℤ
  ignicao : ℕ
  velocidade : Option ℤ
  deriving DecidableEq, Repr, Inhabited

/-- The two period kinds produced by the velocity classifier. -/
inductive TipoPeriodo where
  | MOVIMENTO
  | PARADA
  deriving DecidableEq, Repr, Inhabited

export TipoPeriodo (MOVIMENTO PARADA)

/-- Python `v or 0`: a missing speed is replaced by 0 (processor.py:233). -/
def vOr0 : Option ℤ → ℤ
  | none => 0
  | some x => x

/-- Per-sample instantaneous state of the V5 classifier (processor.py:232-234):
`'MOVIMENTO' if (v or 0) >= VELOCIDADE_MOVIMENTO else 'PARADA'`. -/
def estadoPonto (v : Option ℤ) : TipoPeriodo :=
  if VELOCIDADE_MOVIMENTO ≤ vOr0 v then MOVIMENTO else PARADA

/-- The bare comparison `velocidade >= VELOCIDADE_MOVIMENTO` used by the V6
classifier (processor.py:641).  A SQL NULL reaches pandas as NaN, and a NaN
comparison is false, which is what the `none` branch returns. -/
def velGe (v : Option ℤ) (limiar : ℤ) : Bool :=
  match v with
  | none => false
  | some x => decide (limiar ≤ x)

/-- Per-sample instantaneous state of the V6 classifier (processor.py:641-642). -/
def estadoPontoV6 (v : Option ℤ) : TipoPeriodo :=
  if velGe v VELOCIDADE_MOVIMENTO then MOVIMENTO else PARADA

/-- One entry of `periodos_brutos` / `periodos_consolidados` /
`periodos_final` in `classificar_deslocamentos_v5` (processor.py:247-253). -/
structure PeriodoBruto where
  tipo : TipoPeriodo
  inicio_idx : ℕ
  fim_idx : ℕ
  data_inicio : ℤ
  data_fim : ℤ
  deriving DecidableEq, Repr, Inhabited

/-- Timestamp of row `i` of the per-vehicle frame, `df_placa.loc[i, 'data_hora']`. -/
def horaEm (df : List Amostra) (i : ℕ) : ℤ := (df.getD i default).data_hora

/-- Loop state of PASSO 1 of `classificar_deslocamentos_v5`
(processor.py:237-239). -/
structure EstadoPasso1 where
  estado_atual : Option TipoPeriodo
  inicio_idx : ℕ
  acc : List PeriodoBruto
  deriving Repr

/-- Body of the PASSO 1 loop (processor.py:241-255): on a state change the
previous run is closed at index `i - 1` and a new run starts at `i`. -/
def passo1Passo (df : List Amostra) (s : EstadoPasso1) (i : ℕ) : EstadoPasso1 :=
  let e := estadoPonto (df.getD i default).velocidade
  match s.estado_atual with
  | none => { estado_atual := some e, inicio_idx := i, acc := s.acc }
  | some t =>
      if e ≠ t then
        { estado_atual := some e, inicio_idx := i,
          acc := s.acc ++ [{ tipo := t, inicio_idx := s.inicio_idx, fim_idx := i - 1,
                             data_inicio := horaEm df s.inicio_idx,
                             data_fim := horaEm df (i - 1) }] }
      else s

/-- PASSO 1 of `classificar_deslocamentos_v5` (processor.py:236-265): raw
periods as maximal runs of equal instantaneous state, closing the trailing
run at the last row. -/
def periodosBrutos (df : List Amostra) : List PeriodoBruto :=
  let s := (List.range df.length).foldl (passo1Passo df)
    { estado_atual := none, inicio_idx := 0, acc := [] }
  match s.estado_atual with
  | none => s.acc
  | some t =>
      s.acc ++ [{ tipo := t, inicio_idx := s.inicio_idx, fim_idx := df.length - 1,
                  data_inicio := horaEm df s.inicio_idx,
                  data_fim := horaEm df (df.length - 1) }]

/-- Duration, in minutes, of a period (processor.py:271). -/
def duracaoPeriodo (p : PeriodoBruto) : ℤ := p.data_fim - p.data_inicio

/-- The in-place mutation `ultimo['fim_idx'] = p['fim_idx'];
ultimo['data_fim'] = p['data_fim']` (processor.py:283-284): extend period
`u` up to the end of period `p`. -/
def estenderAte (u p : PeriodoBruto) : PeriodoBruto :=
  { u with fim_idx := p.fim_idx, data_fim := p.data_fim }

/-- Apply `f` to the last element of a list, the functional rendering of a
Python mutation of `lista[-1]`. -/
def patchLast {α : Type} (f : α → α) : List α → List α
  | [] => []
  | [x] => [f x]
  | x :: y :: xs => x :: patchLast f (y :: xs)

/-- Body of the PASSO 2 loop of `classificar_deslocamentos_v5`
(processor.py:270-300).  The first period is appended unconditionally;
afterwards a short period (rule 1) or a same-kind small-gap period (rule 2)
extends the previous one, and rule 3 is an explicit `pass` in the source. -/
def passo2Passo (acc : List PeriodoBruto) (p : PeriodoBruto) : List PeriodoBruto :=
  match acc.getLast? with
  | none => [p]
  | some ultimo =>
      let duracao := duracaoPeriodo p
      let gap := p.data_inicio - ultimo.data_fim
      if duracao < MIN_DURACAO_PERIODO then
        patchLast (fun u => estenderAte u p) acc
      else if gap ≤ GAP_CONSOLIDACAO ∧ ultimo.tipo = p.tipo then
        patchLast (fun u => estenderAte u p) acc
      else
        acc ++ [p]

/-- PASSO 2 of `classificar_deslocamentos_v5` (processor.py:267-300). -/
def passo2 (l : List PeriodoBruto) : List PeriodoBruto := l.foldl passo2Passo []

/-- PASSO 3 of `classificar_deslocamentos_v5` (processor.py:302-328): the
while-loop over `periodos_consolidados`, rendered as recursion over the list
suffix still to be visited.  For a movement head, the inner while
(processor.py:310-325) absorbs a following short stop together with the
movement after it, extending the head in place (`i += 2`); when the inner
test fails, the head is emitted and the loop resumes at the next period. -/
def passo3 : List PeriodoBruto → List PeriodoBruto
  | [] => []
  | [p] => [p]
  | p :: parada :: resto =>
      if p.tipo = MOVIMENTO then
        match resto with
        | [] => [p, parada]
        | prox :: resto' =>
            if parada.tipo = PARADA ∧ prox.tipo = MOVIMENTO ∧
                duracaoPeriodo parada < GAP_CONSOLIDACAO then
              passo3 (estenderAte p prox :: resto')
            else p :: passo3 (parada :: prox :: resto')
      else p :: passo3 (parada :: resto)
termination_by l => l.length
decreasing_by
  · simp only [List.length_cons]
    omega
  · simp only [List.length_cons]
    omega
  · simp only [List.length_cons]
    omega

/-- The consolidated period list of one vehicle, before the in-progress
hold-back of PASSO 4: PASSO 1 to PASSO 3 of `classificar_deslocamentos_v5`. -/
def periodosFinal (df : List Amostra) : List PeriodoBruto :=
  passo3 (passo2 (periodosBrutos df))

/-- The pandas reduction `df_placa['raw_id'].max()` (processor.py:335). -/
def maxRawIdLote (df : List Amostra) : ℕ := (df.map (·.raw_id)).foldl Nat.max 0

/-- One element of the `resultados` list built by PASSO 4
(processor.py:357-372). -/
structure Resultado where
  placa : String
  tipo : String
  inicio_idx : ℕ
  fim_idx : ℕ
  data_inicio : ℤ
  data_fim : ℤ
  odo_inicio : ℤ
  odo_fim : ℤ
  raw_id_inicio : ℕ
  raw_id_fim : ℕ
  lat_inicio : ℤ
  lon_inicio : ℤ
  lat_fim : ℤ
  lon_fim : ℤ
  deriving DecidableEq, Repr, Inhabited

/-- The dictionary appended by PASSO 4 for an emitted period
(processor.py:357-372). -/
def mkResultado (placa : String) (df : List Amostra) (p : PeriodoBruto) : Resultado :=
  { placa := placa
    tipo := if p.tipo = MOVIMENTO then "DESLOCAMENTO" else "PARADA"
    inicio_idx := p.inicio_idx
    fim_idx := p.fim_idx
    data_inicio := horaEm df p.inicio_idx
    data_fim := horaEm df p.fim_idx
    odo_inicio := (df.getD p.inicio_idx default).odometro
    odo_fim := (df.getD p.fim_idx default).odometro
    raw_id_inicio := (df.getD p.inicio_idx default).raw_id
    raw_id_fim := (df.getD p.fim_idx default).raw_id
    lat_inicio := (df.getD p.inicio_idx default).latitude
    lon_inicio := (df.getD p.inicio_idx default).longitude
    lat_fim := (df.getD p.fim_idx default).latitude
    lon_fim := (df.getD p.fim_idx default).longitude }

/-- The in-progress test of PASSO 4 (processor.py:344-352): the period at
position `idx` of the `nfinal` consolidated periods is skipped when it is
the last one and either ended less than 60 minutes before `agora` (the
literal 60 is hardcoded at processor.py:352; `TEMPO_PERIODO_EM_CURSO` is
not consulted) or its last raw id is the largest raw id of the batch. -/
def emCurso (agora : ℤ) (df : List Amostra) (nfinal idx : ℕ) (p : PeriodoBruto) : Bool :=
  let data_fim_periodo := horaEm df p.fim_idx
  let raw_id_fim_periodo := (df.getD p.fim_idx default).raw_id
  let is_ultimo := idx == nfinal - 1
  let tempo_desde_fim := agora - data_fim_periodo
  let is_ultimo_raw_id := raw_id_fim_periodo == maxRawIdLote df
  is_ultimo && (decide (tempo_desde_fim < 60) || is_ultimo_raw_id)

/-- The PASSO 4 enumeration loop (processor.py:337-372), with `idx` the
current position in the consolidated list. -/
def passo4 (agora : ℤ) (placa : String) (df : List Amostra) (nfinal : ℕ) :
    ℕ → List PeriodoBruto → List Resultado
  | _, [] => []
  | idx, p :: resto =>
      if emCurso agora df nfinal idx p then passo4 agora placa df nfinal (idx + 1) resto
      else mkResultado placa df p :: passo4 agora placa df nfinal (idx + 1) resto

/-- The full per-vehicle run of `classificar_deslocamentos_v5`
(processor.py:207-374) on one vehicle's timestamp-sorted frame: PASSO 1-3
followed by the PASSO 4 emission with its in-progress hold-back.  `agora`
stands for `datetime.now()` (processor.py:332). -/
def resultadosV5 (agora : ℤ) (placa : String) (df : List Amostra) : List Resultado :=
  passo4 agora placa df (periodosFinal df).length 0 (periodosFinal df)

/-- Decides whether a period list covers exactly the index interval
`[a, b)`: the first period starts at `a`, consecutive periods are
contiguous (next `inicio_idx` = previous `fim_idx` + 1), every period is
non-empty, and the last one ends at `b - 1`.  This is the partition
property: every sample index in `[a, b)` belongs to exactly one period. -/
def cobre : ℕ → List PeriodoBruto → ℕ → Bool
  | a, [], b => a == b
  | a, p :: ps, b => (p.inicio_idx == a) && (decide (a ≤ p.fim_idx)) && cobre (p.fim_idx + 1) ps b

/-- Single telemetry row used in concrete checks: one stationary ping. -/
def amostraUnica : Amostra :=
  { raw_id := 1, placa := "AAA", data_hora := 0, latitude := 1, longitude := 2,
    odometro := 100, ignicao := 0, velocidade := some 0 }

/-- Index range of an emitted result row, for checking the partition
property of the emitted output. -/
def periodoDoResultado (r : Resultado) : PeriodoBruto :=
  { tipo := if r.tipo == "DESLOCAMENTO" then MOVIMENTO else PARADA,
    inicio_idx := r.inicio_idx, fim_idx := r.fim_idx,
    data_inicio := r.data_inicio, data_fim := r.data_fim }

/-- The in-progress hold-back condition for the final period rewritten as a
keep condition: the final period is emitted exactly when it ended at least
60 minutes before `agora` AND its last raw id is not the largest of the
batch (the negation of the skip test at processor.py:352). -/
def manterUltimo (agora : ℤ) (df : List Amostra) (p : PeriodoBruto) : Bool :=
  decide (60 ≤ agora - horaEm df p.fim_idx) &&
    ((df.getD p.fim_idx default).raw_id != maxRawIdLote df)

/-- One persisted row of the `deslocamentos` table, with the columns read
by `obter_ultimo_estado_banco` (processor.py:544-551) and
`consolidar_periodos_consecutivos` (processor.py:981-989), the `status`
used by the closing UI (app.py:449) and the Trip link `viagem_id`. -/
structure Deslocamento where
  id : ℕ
  placa : String
  tipo_parada : String
  data_inicio : ℤ
  data_fim : ℤ
  km_inicial : ℤ
  km_final : ℤ
  distancia : ℤ
  local_inicio : String
  local_fim : String
  tempo : ℤ
  tempo_ocioso : ℤ
  tempo_motor_off : ℤ
  qtd_pontos : ℕ
  raw_id_inicio : Option ℕ
  raw_id_fim : Option ℕ
  status : String
  viagem_id : Option ℕ
  deriving DecidableEq, Repr, Inhabited

/-- `obter_ultimo_raw_id_processado` (processor.py:755-773):
`SELECT MAX(raw_id_fim) FROM deslocamentos WHERE raw_id_fim IS NOT NULL`,
with `result[0] if result and result[0] else 0`.  Note the query has no
vehicle filter: the maximum ranges over ALL vehicles' rows. -/
def obterUltimoRawIdProcessado (banco : List Deslocamento) : ℕ :=
  (banco.filterMap (fun d => d.raw_id_fim)).foldl Nat.max 0

/-- Modelled from the spec: the §6 contract
`last_processed_cursor(vehicle) -> RawSampleId?` asks for the highest
committed `source_range.end` across THAT VEHICLE's periods (0 when none).
Stated here for comparison with `obterUltimoRawIdProcessado`, which the
source actually uses. -/
def lastProcessedCursorSpec (placa : String) (banco : List Deslocamento) : ℕ :=
  ((banco.filter (fun d => d.placa == placa)).filterMap (fun d => d.raw_id_fim)).foldl Nat.max 0

/-- The ORDER BY key of the incremental load (processor.py:816):
`ORDER BY p.id_veiculo, p.data_hora`; the vehicle key is the plate here. -/
def ordemCarga (a b : Amostra) : Prop :=
  a.placa < b.placa ∨ (a.placa = b.placa ∧ a.data_hora ≤ b.data_hora)

instance : DecidableRel ordemCarga := fun a b =>
  inferInstanceAs (Decidable (a.placa < b.placa ∨ (a.placa = b.placa ∧ a.data_hora ≤ b.data_hora)))

instance : IsTotal Amostra ordemCarga where
  total a b := by
    rcases lt_trichotomy a.placa b.placa with h | h | h
    · exact Or.inl (Or.inl h)
    · rcases le_total a.data_hora b.data_hora with hd | hd
      · exact Or.inl (Or.inr ⟨h, hd⟩)
      · exact Or.inr (Or.inr ⟨h.symm, hd⟩)
    · exact Or.inr (Or.inl h)

instance : IsTrans Amostra ordemCarga where
  trans a b c hab hbc := by
    rcases hab with h1 | ⟨h1, h1d⟩
    · rcases hbc with h2 | ⟨h2, _⟩
      · exact Or.inl (h1.trans h2)
      · exact Or.inl (h2 ▸ h1)
    · rcases hbc with h2 | ⟨h2, h2d⟩
      · exact Or.inl (h1 ▸ h2)
      · exact Or.inr ⟨h1.trans h2, h1d.trans h2d⟩

/-- The incremental sample load of `processar_deslocamentos`
(processor.py:802-820): rows of `posicoes_raw` with `id` strictly greater
than the cursor, ordered by (vehicle, timestamp). -/
def carregarNovasAmostras (ultimo_id : ℕ) (posicoes : List Amostra) : List Amostra :=
  List.insertionSort ordemCarga (posicoes.filter (fun p => decide (ultimo_id < p.raw_id)))

/-- One entry of the `updates` list produced by
`classificar_deslocamentos_v6_persistente` (processor.py:671-677). -/
structure AtualizacaoV6 where
  id : ℕ
  data_fim : ℤ
  km_final : ℤ
  local_fim : String
  raw_id_fim : ℕ
  deriving DecidableEq, Repr, Inhabited

/-- One entry of the `inserts` list produced by
`classificar_deslocamentos_v6_persistente` (processor.py:695-702): the four
end fields are absent until the insert is closed by a later transition or by
the end of the batch. -/
structure InsercaoV6 where
  tipo : TipoPeriodo
  data_inicio : ℤ
  km_inicial : ℤ
  local_inicio : String
  raw_id_inicio : ℕ
  data_fim : Option ℤ
  km_final : Option ℤ
  local_fim : Option String
  raw_id_fim : Option ℕ
  deriving DecidableEq, Repr, Inhabited

/-- The prior-state dictionary handed to the V6 classifier.
`obter_ultimo_estado_banco` (processor.py:557-566) also carries data_fim,
km_final, local_fim and raw_id_fim, but the classifier reads only `tipo`
(processor.py:632) and `id` (processor.py:633), so the embedding keeps
those two fields; `id = none` is the virtual not-yet-saved state
(processor.py:617). -/
structure EstadoV6 where
  id : Option ℕ
  tipo : TipoPeriodo
  deriving DecidableEq, Repr, Inhabited

/-- Loop state of the V6 point loop (processor.py:632-637). -/
structure MaquinaV6 where
  updates : List AtualizacaoV6
  inserts : List InsercaoV6
  current_state_type : TipoPeriodo
  current_db_id : Option ℕ
  transition_buffer : List Amostra
  deriving DecidableEq, Repr, Inhabited

/-- The coordinate string used for the deferred-geocoding placeholders,
Python f-string with latitude and longitude separated by a comma. -/
def localStr {α : Type} [ToString α] (lat lon : α) : String := toString lat ++ ", " ++ toString lon

/-- Closing an insert that was still open: the mutation of `inserts[-1]`
at processor.py:683-686 and processor.py:726-729. -/
def fecharInsercao (t : Amostra) (ins : InsercaoV6) : InsercaoV6 :=
  { ins with
    data_fim := some t.data_hora
    km_final := some t.odometro
    local_fim := some (localStr t.latitude t.longitude)
    raw_id_fim := some t.raw_id }

/-- The new period opened at a confirmed transition (processor.py:695-702):
its start is the transition start point, so start = previous end. -/
def novaInsercao (point_type : TipoPeriodo) (t : Amostra) : InsercaoV6 :=
  { tipo := point_type, data_inicio := t.data_hora, km_inicial := t.odometro,
    local_inicio := localStr t.latitude t.longitude, raw_id_inicio := t.raw_id,
    data_fim := none, km_final := none, local_fim := none, raw_id_fim := none }

/-- A confirmed state transition (processor.py:656-702): close the previous
period — an UPDATE when it lives in the database, otherwise a patch of the
still-open insert — and open a new period starting at the transition start
point (`data_fim_anterior`), with `current_db_id` reset to `None` and the
buffer cleared. -/
def confirmarTransicao (point_type : TipoPeriodo) (t : Amostra) (s : MaquinaV6) : MaquinaV6 :=
  { updates :=
      match s.current_db_id with
      | some i =>
          s.updates ++ [{ id := i, data_fim := t.data_hora, km_final := t.odometro,
                          local_fim := localStr t.latitude t.longitude,
                          raw_id_fim := t.raw_id }]
      | none => s.updates,
    inserts :=
      (match s.current_db_id with
       | some _ => s.inserts
       | none => patchLast (fecharInsercao t) s.inserts) ++ [novaInsercao point_type t],
    current_state_type := point_type, current_db_id := none, transition_buffer := [] }

/-- Body of the V6 point loop (processor.py:639-708): a point of the
opposite type grows the transition buffer and, once the buffered span
reaches the confirmation threshold, fires the transition; a point of the
current type clears the buffer. -/
def passoV6 (s : MaquinaV6) (p : Amostra) : MaquinaV6 :=
  let point_type := estadoPontoV6 p.velocidade
  if point_type ≠ s.current_state_type then
    let buffer := s.transition_buffer ++ [p]
    let duration_minutes := p.data_hora - (buffer.headD p).data_hora
    let confirm_threshold :=
      if s.current_state_type = MOVIMENTO then GAP_CONSOLIDACAO else MIN_DURACAO_PERIODO
    if confirm_threshold ≤ duration_minutes then
      confirmarTransicao point_type (buffer.headD p) s
    else { s with transition_buffer := buffer }
  else { s with transition_buffer := [] }

/-- The after-loop closing of the in-progress state (processor.py:710-743):
an UPDATE of the database row when the whole batch extended it, else a
patch of the last open insert, else the whole-batch fallback insert. -/
def finalizarV6 (primeiro ultimo_ponto : Amostra) (s : MaquinaV6) :
    List AtualizacaoV6 × List InsercaoV6 :=
  match s.current_db_id with
  | some i =>
      (s.updates ++ [{ id := i, data_fim := ultimo_ponto.data_hora,
                       km_final := ultimo_ponto.odometro,
                       local_fim := localStr ultimo_ponto.latitude ultimo_ponto.longitude,
                       raw_id_fim := ultimo_ponto.raw_id }], s.inserts)
  | none =>
      match s.inserts with
      | [] =>
          (s.updates,
           [{ tipo := s.current_state_type, data_inicio := primeiro.data_hora,
              km_inicial := primeiro.odometro,
              local_inicio := localStr primeiro.latitude primeiro.longitude,
              raw_id_inicio := primeiro.raw_id,
              data_fim := some ultimo_ponto.data_hora,
              km_final := some ultimo_ponto.odometro,
              local_fim := some (localStr ultimo_ponto.latitude ultimo_ponto.longitude),
              raw_id_fim := some ultimo_ponto.raw_id }])
      | first :: resto => (s.updates, patchLast (fecharInsercao ultimo_ponto) (first :: resto))

/-- The ordering used by the V6 pre-sort (processor.py:602),
`df.sort_values('data_hora')`. -/
def ordemData (a b : Amostra) : Prop := a.data_hora ≤ b.data_hora

instance : DecidableRel ordemData := fun a b =>
  inferInstanceAs (Decidable (a.data_hora ≤ b.data_hora))

instance : IsTotal Amostra ordemData where
  total a b := le_total a.data_hora b.data_hora

instance : IsTrans Amostra ordemData where
  trans _ _ _ h1 h2 := le_trans h1 h2

/-- `classificar_deslocamentos_v6_persistente` (processor.py:573-751): on an
empty batch the prior state is returned unchanged; otherwise the sorted
points are run through the transition machine starting from the prior state
(or a virtual state inferred from the first point), and the trailing
in-progress state is closed at the last point.  The returned state models
the Python novo_estado: `id = none` stands for the 'PENDING_INSERT'
sentinel (processor.py:748). -/
def classificarDeslocamentosV6Persistente (df : List Amostra)
    (estado_atual : Option EstadoV6) :
    List AtualizacaoV6 × List InsercaoV6 × Option EstadoV6 :=
  match df with
  | [] => ([], [], estado_atual)
  | d :: ds =>
      let pontos := List.insertionSort ordemData (d :: ds)
      let primeiro := pontos.headD d
      let estado : EstadoV6 :=
        match estado_atual with
        | none => { id := none, tipo := estadoPontoV6 primeiro.velocidade }
        | some e => e
      let final := pontos.foldl passoV6
        { updates := [], inserts := [], current_state_type := estado.tipo,
          current_db_id := estado.id, transition_buffer := [] }
      let ultimo_ponto := pontos.getLastD d
      let resultado := finalizarV6 primeiro ultimo_ponto final
      (resultado.1, resultado.2,
       some { id := final.current_db_id, tipo := final.current_state_type })

/-- Invariant of the V6 machine started from a database row `n`: either no
transition has fired yet (no output), or the single update closing row `n`
has been emitted and the first insert starts exactly at that update's end
values. -/
def InvV6 (n : ℕ) (s : MaquinaV6) : Prop :=
  (s.current_db_id = some n ∧ s.updates = [] ∧ s.inserts = [])
  ∨ (s.current_db_id = none ∧
      ∃ u, s.updates = [u] ∧ u.id = n ∧
        ∃ first resto, s.inserts = first :: resto ∧
          first.data_inicio = u.data_fim ∧ first.km_inicial = u.km_final ∧
          first.raw_id_inicio = u.raw_id_fim ∧ first.local_inicio = u.local_fim)

/-- The distance stored for a new period by `processar_deslocamentos`
(processor.py:882): `(ins.get('km_final', 0) - ins['km_inicial']) if
'km_final' in ins else 0` — a bare difference, with no clamping. -/
def distanciaInsercao (ins : InsercaoV6) : ℤ :=
  match ins.km_final with
  | some km_final => km_final - ins.km_inicial
  | none => 0

/-- The status stored for every new period (processor.py:886): always
'PENDENTE'; the schema carries no odometer-reset marker of any kind. -/
def statusInsercao (_ : InsercaoV6) : String := "PENDENTE"

/-- The DELETE of `limpar_e_reprocessar` (processor.py:1147):
`DELETE FROM deslocamentos` with no WHERE clause — no row survives,
whatever its status. -/
def limparTodosDeslocamentos (banco : List Deslocamento) : List Deslocamento :=
  banco.filter (fun _ => false)

/-- The inner grouping loop of `consolidar_periodos_consecutivos`
(processor.py:1039-1060): starting from `reg_atual`, keep taking the next
record while the gap from the group's last record (`ultimo`) is at most the
tolerance and the kind matches `reg_atual`'s; returns (group tail, rest). -/
def coletarGrupo (tolerancia_minutos : ℤ) (reg_atual : Deslocamento) (ultimo : Deslocamento) :
    List Deslocamento → List Deslocamento × List Deslocamento
  | [] => ([], [])
  | reg_prox :: resto =>
      let gap := reg_prox.data_inicio - ultimo.data_fim
      if gap ≤ tolerancia_minutos ∧ reg_atual.tipo_parada = reg_prox.tipo_parada then
        let r := coletarGrupo tolerancia_minutos reg_atual reg_prox resto
        (reg_prox :: r.1, r.2)
      else ([], reg_prox :: resto)

/-- The aggregated record written for a group of two or more
(processor.py:1062-1086); a singleton group leaves its record untouched. -/
def consolidarGrupo (primeiro : Deslocamento) (grupo : List Deslocamento) : Deslocamento :=
  match grupo.getLast? with
  | none => primeiro
  | some ultimo =>
      { primeiro with
        data_fim := ultimo.data_fim
        km_final := ultimo.km_final
        distancia := primeiro.distancia + (grupo.map (fun r => r.distancia)).sum
        local_fim := ultimo.local_fim
        tempo := ultimo.data_fim - primeiro.data_inicio
        tempo_ocioso := primeiro.tempo_ocioso + (grupo.map (fun r => r.tempo_ocioso)).sum
        tempo_motor_off :=
          primeiro.tempo_motor_off + (grupo.map (fun r => r.tempo_motor_off)).sum
        qtd_pontos := primeiro.qtd_pontos + (grupo.map (fun r => r.qtd_pontos)).sum
        raw_id_fim := ultimo.raw_id_fim }

/-- `consolidar_periodos_consecutivos` (processor.py:960-1129) on one
vehicle's PENDENTE rows sorted by data_inicio: each maximal consolidatable
group is replaced by one aggregated record (the group's members beyond the
first are the rows the source DELETEs). -/
def consolidarPeriodosConsecutivos (tolerancia_minutos : ℤ) :
    List Deslocamento → List Deslocamento
  | [] => []
  | reg_atual :: resto =>
      let r := coletarGrupo tolerancia_minutos reg_atual reg_atual resto
      consolidarGrupo reg_atual r.1 :: consolidarPeriodosConsecutivos tolerancia_minutos r.2
termination_by l => l.length
decreasing_by
  · have key : ∀ (l : List Deslocamento) (t : ℤ) (a u : Deslocamento),
        ((coletarGrupo t a u l).2).length ≤ l.length := by
      intro l
      induction l with
      | nil => intro t a u; simp [coletarGrupo]
      | cons x xs ih =>
          intro t a u
          rw [coletarGrupo]
          split
          · exact le_trans (ih t a x) (Nat.le_succ _)
          · simp
    simp only [List.length_cons]
    exact Nat.lt_succ_of_le (key _ _ _ _)

/-- `POI_RADIUS` (poi_data.py:12). -/
def POI_RADIUS : ℚ := 0.006

/-- `POIS_NUPORANGA` (poi_data.py:17-60), in dictionary insertion order. -/
def POIS_NUPORANGA : List (String × List (ℚ × ℚ)) :=
  [("Base Nuporanga (Andrioni)", [(-20.722612, -47.751135)]),
   ("Linha Granjas Faria", [(-14.016888, -56.085139)]),
   ("JBS Nuporanga/SP", [(-20.737595, -47.768771),
                         (-20.73766521696245, -47.769079458847585)]),
   ("JBS Passos/MG", [(-20.732566, -46.572874), (-20.731582, -46.572266)]),
   ("Incubatório Ipigua/SP", [(-20.653082, -49.387978)]),
   ("Incubatório Sarapui/SP", [(-23.620574, -47.825299)]),
   ("Incubatório Pereiras/SP", [(-23.053194, -47.961408)]),
   ("JBS Tatuí/SP", [(-23.37935, -47.784383)]),
   ("JBS Sidrolândia/MS", [(-20.910013, -54.946136)]),
   ("Incubatório Nuporanga/SP", [(-20.739045, -47.748742)]),
   ("Incubatório Brasília/DF", [(-15.938229, -48.16641)]),
   ("Incubatório São Gonçalo dos Campos/BA", [(-12.304453, -38.958221)])]

/-- Python `round(x, 3)` (processor.py:101-102), modelled on rationals as
round-to-nearest with half-up ties; the binary-float tie behaviour of the
source is below the 1e-3 granularity the claims depend on. -/
def round3 (q : ℚ) : ℚ := ((⌊q * 1000 + 1 / 2⌋ : ℤ) : ℚ) / 1000

/-- The POI scan (processor.py:107-110): the nested for-loops over the
dictionary items, returning the first name one of whose reference points is
within `POI_RADIUS` of the rounded coordinate on both axes. -/
def procurarPOI (lat_r lon_r : ℚ) : List (String × List (ℚ × ℚ)) → Option String
  | [] => none
  | par :: resto =>
      if par.2.any (fun c =>
          decide (|lat_r - c.1| < POI_RADIUS) && decide (|lon_r - c.2| < POI_RADIUS)) then
        some par.1
      else procurarPOI lat_r lon_r resto

/-- The address dictionary of a successful reverse-geocoding response
(processor.py:121-123). -/
structure EnderecoGeo where
  city : Option String
  town : Option String
  municipality : Option String
  village : Option String
  state : Option String
  deriving DecidableEq, Repr

/-- `limpar_nome_local` (processor.py:64-84). -/
def limparNomeLocal (nome : String) : String :=
  ((((nome.replace "Região Geográfica Imediata de " "Região de ").replace
      "Região Geográfica Intermediária de " "Região de ").replace
      "Microrregião de " "").replace "Mesorregião de " "").trim

/-- The `est_map.get(state, state)` lookup (processor.py:125-130). -/
def estMap (state : String) : String :=
  if state = "São Paulo" then "SP"
  else if state = "Minas Gerais" then "MG"
  else if state = "Goiás" then "GO"
  else if state = "Paraná" then "PR"
  else if state = "Mato Grosso" then "MT"
  else if state = "Mato Grosso do Sul" then "MS"
  else if state = "Bahia" then "BA"
  else if state = "Rio de Janeiro" then "RJ"
  else if state = "Santa Catarina" then "SC"
  else if state = "Rio Grande do Sul" then "RS"
  else state

/-- Input of the place resolver: either a (lat, lon) pair convertible to
numbers, or anything `float()` rejects (processor.py:98-104). -/
inductive CoordEntrada where
  | invalida
  | valida (lat lon : ℚ)
  deriving DecidableEq, Repr

/-- Body of `get_cached_city_name` after a successful float conversion and
rounding (processor.py:106-140), on the already-rounded coordinate: POI
scan first, then the external lookup, with the rounded-coordinate string as
the degraded fallback. -/
def cityNameLookup (geo : ℚ → ℚ → Option EnderecoGeo) (lat_r lon_r : ℚ) : String :=
  match procurarPOI lat_r lon_r POIS_NUPORANGA with
  | some nome => nome
  | none =>
      match geo lat_r lon_r with
      | none => localStr lat_r lon_r
      | some endereco =>
          match (((endereco.city.orElse (fun _ => endereco.town)).orElse
              (fun _ => endereco.municipality)).orElse (fun _ => endereco.village)) with
          | some city =>
              let uf :=
                match endereco.state with
                | none => ""
                | some st => estMap st
              if uf ≠ "" ∧ uf.length = 2 then limparNomeLocal (city ++ "/" ++ uf)
              else limparNomeLocal city
          | none => "Em Trânsito"

/-- `get_cached_city_name` (processor.py:87-140).  The external Nominatim
lookup is the parameter `geo`; `geo = none` covers every degraded path of
the source: geopy missing, the API skipped, a timeout or exception, a
response without `loc` or without `loc.address` — all of which fall through
to the rounded-coordinate string.  The lru_cache decoration only memoises
a deterministic function and is semantically transparent. -/
def get_cached_city_name (geo : ℚ → ℚ → Option EnderecoGeo) : CoordEntrada → String
  | CoordEntrada.invalida => "Coordenadas Inválidas"
  | CoordEntrada.valida lat lon => cityNameLookup geo (round3 lat) (round3 lon)

/-- The in-memory consolidation pass of the V5 classifier: PASSO 2 followed
by PASSO 3 (processor.py:267-328). -/
def consolidarV5 (l : List PeriodoBruto) : List PeriodoBruto := passo3 (passo2 l)

/-- A stationary ping, for the concrete checks. -/
def amostraParada (rid : ℕ) (t : ℤ) : Amostra :=
  { raw_id := rid, placa := "AAA", data_hora := t, latitude := 1, longitude := 2,
    odometro := 100, ignicao := 0, velocidade := some 0 }

/-- A moving ping (40 km/h), for the concrete checks. -/
def amostraMovimento (rid : ℕ) (t : ℤ) : Amostra :=
  { raw_id := rid, placa := "AAA", data_hora := t, latitude := 1, longitude := 2,
    odometro := 100, ignicao := 1, velocidade := some 40 }

/-- Two stationary pings at minutes 0 and 2 — one stop period. -/
def dfDoisPontos : List Amostra := [amostraParada 1 0, amostraParada 2 2]

/-- Spec §8 concrete scenario 3: a 2-minute movement burst (pings at
minutes 0 and 2) immediately followed by a 40-minute stop (pings at
minutes 3 and 43). -/
def dfCenario3 : List Amostra :=
  [amostraMovimento 1 0, amostraMovimento 2 2, amostraParada 3 3, amostraParada 4 43]

/-- A committed PENDENTE row for vehicle AAA with raw_id_fim 10. -/
def deslocamentoBase : Deslocamento :=
  { id := 1, placa := "AAA", tipo_parada := "PARADA", data_inicio := 0, data_fim := 10,
    km_inicial := 0, km_final := 0, distancia := 0, local_inicio := "X", local_fim := "X",
    tempo := 10, tempo_ocioso := 0, tempo_motor_off := 0, qtd_pontos := 2,
    raw_id_inicio := some 1, raw_id_fim := some 10, status := "PENDENTE",
    viagem_id := none }

/-- Two vehicles: AAA processed up to raw id 10, BBB up to raw id 100. -/
def bancoDoisVeiculos : List Deslocamento :=
  [deslocamentoBase, { deslocamentoBase with id := 2, placa := "BBB", raw_id_fim := some 100 }]

/-- An AAA sample with raw id 50, between AAA's own cursor (10) and the
global cursor (100). -/
def amostraIntermediaria : Amostra := amostraParada 50 5

/-- A closed V6 insert whose odometer decreased (1050 → 980). -/
def insercaoComReset : InsercaoV6 :=
  { tipo := MOVIMENTO, data_inicio := 0, km_inicial := 1050, local_inicio := "1, 2",
    raw_id_inicio := 1, data_fim := some 30, km_final := some 980,
    local_fim := some "1, 2", raw_id_fim := some 4 }

/-- A period already linked to a Trip. -/
def deslocamentoProcessado : Deslocamento :=
  { deslocamentoBase with id := 3, status := "PROCESSADO", viagem_id := some 7 }

/-- A prior V6 state loaded from the database: open stop period, row 7. -/
def estadoBancoExemplo : EstadoV6 := { id := some 7, tipo := PARADA }

/-- Two moving pings 6 minutes apart: enough to confirm a stop-to-movement
transition (threshold `MIN_DURACAO_PERIODO` = 5). -/
def dfV6Exemplo : List Amostra :=
  [{ raw_id := 11, placa := "AAA", data_hora := 0, latitude := 1, longitude := 2,
     odometro := 100, ignicao := 1, velocidade := some 10 },
   { raw_id := 12, placa := "AAA", data_hora := 6, latitude := 3, longitude := 4,
     odometro := 105, ignicao := 1, velocidade := some 10 }]

section LemasCobre

theorem cobre_append (p : PeriodoBruto) :
    ∀ (l : List PeriodoBruto) (a b : ℕ), cobre a l b = true → p.inicio_idx = b →
      b ≤ p.fim_idx → cobre a (l ++ [p]) (p.fim_idx + 1) = true
  | [], a, b, h, hi, hb => by
      simp only [cobre, beq_iff_eq] at h
      subst h
      simp [cobre, hi, hb]
  | q :: l, a, b, h, hi, hb => by
      simp only [cobre, Bool.and_eq_true, beq_iff_eq, decide_eq_true_eq] at h
      obtain ⟨⟨h1, h2⟩, h3⟩ := h
      simp only [List.cons_append, cobre, Bool.and_eq_true, beq_iff_eq, decide_eq_true_eq]
      exact ⟨⟨h1, h2⟩, cobre_append p l _ b h3 hi hb⟩

theorem cobre_patchLast (p : PeriodoBruto) :
    ∀ (l : List PeriodoBruto) (a b : ℕ), cobre a l b = true → l ≠ [] →
      b ≤ p.fim_idx + 1 →
      cobre a (patchLast (fun u => estenderAte u p) l) (p.fim_idx + 1) = true
  | [], _, _, _, hne, _ => absurd rfl hne
  | [x], a, b, h, _, hb => by
      simp only [cobre, Bool.and_eq_true, beq_iff_eq, decide_eq_true_eq] at h
      obtain ⟨⟨h1, h2⟩, h3⟩ := h
      simp only [patchLast, cobre, estenderAte, Bool.and_eq_true, beq_iff_eq,
        decide_eq_true_eq]
      exact ⟨⟨h1, by omega⟩, by simp⟩
  | x :: y :: l, a, b, h, _, hb => by
      have h' : ((x.inicio_idx == a) && (decide (a ≤ x.fim_idx)) &&
          cobre (x.fim_idx + 1) (y :: l) b) = true := h
      simp only [Bool.and_eq_true, beq_iff_eq, decide_eq_true_eq] at h'
      obtain ⟨⟨h1, h2⟩, h3⟩ := h'
      show ((x.inicio_idx == a) && (decide (a ≤ x.fim_idx)) &&
          cobre (x.fim_idx + 1) (patchLast (fun u => estenderAte u p) (y :: l))
            (p.fim_idx + 1)) = true
      simp only [Bool.and_eq_true, beq_iff_eq, decide_eq_true_eq]
      exact ⟨⟨h1, h2⟩, cobre_patchLast p (y :: l) _ b h3 (by simp) hb⟩

end LemasCobre

section LemasPasso1

theorem passo1Passo_none (df : List Amostra) (s : EstadoPasso1) (i : ℕ)
    (h : s.estado_atual = none) :
    passo1Passo df s i =
      { estado_atual := some (estadoPonto (df.getD i default).velocidade),
        inicio_idx := i, acc := s.acc } := by
  simp only [passo1Passo, h]

theorem passo1Passo_same (df : List Amostra) (s : EstadoPasso1) (i : ℕ) (t : TipoPeriodo)
    (h : s.estado_atual = some t)
    (he : estadoPonto (df.getD i default).velocidade = t) :
    passo1Passo df s i = s := by
  simp only [passo1Passo, h]
  rw [if_neg (not_not.mpr he)]

theorem passo1Passo_diff (df : List Amostra) (s : EstadoPasso1) (i : ℕ) (t : TipoPeriodo)
    (h : s.estado_atual = some t)
    (he : estadoPonto (df.getD i default).velocidade ≠ t) :
    passo1Passo df s i =
      { estado_atual := some (estadoPonto (df.getD i default).velocidade), inicio_idx := i,
        acc := s.acc ++ [{ tipo := t, inicio_idx := s.inicio_idx, fim_idx := i - 1,
                           data_inicio := horaEm df s.inicio_idx,
                           data_fim := horaEm df (i - 1) }] } := by
  simp only [passo1Passo, h]
  rw [if_pos he]

/-- Invariant of the PASSO 1 loop: after at least one row, a run is open,
and closing it at any future index `fi` yields a cover of `[0, fi]`. -/
theorem passo1_inv (df : List Amostra) :
    ∀ k : ℕ, 1 ≤ k →
      ∃ t, ((List.range k).foldl (passo1Passo df)
              { estado_atual := none, inicio_idx := 0, acc := [] }).estado_atual = some t ∧
        ∀ (fi : ℕ) (t' : TipoPeriodo) (d e : ℤ), k - 1 ≤ fi →
          cobre 0 (((List.range k).foldl (passo1Passo df)
              { estado_atual := none, inicio_idx := 0, acc := [] }).acc ++
            [{ tipo := t', inicio_idx := ((List.range k).foldl (passo1Passo df)
              { estado_atual := none, inicio_idx := 0, acc := [] }).inicio_idx,
               fim_idx := fi, data_inicio := d, data_fim := e }]) (fi + 1) = true := by
  intro k hk
  induction k with
  | zero => omega
  | succ k ih =>
      rcases Nat.eq_or_lt_of_le hk with h1 | h1
      · -- k + 1 = 1: first iteration, branch `estado_atual is None`
        have hk0 : k = 0 := by omega
        subst hk0
        refine ⟨estadoPonto (df.getD 0 default).velocidade, ?_, ?_⟩
        · rfl
        · intro fi t' d e _
          simp [List.range_succ, passo1Passo, cobre]
      · -- k ≥ 1: use the invariant for the first k iterations
        have hk1 : 1 ≤ k := by omega
        obtain ⟨t, ht, hcov⟩ := ih hk1
        rw [List.range_succ, List.foldl_append, List.foldl_cons, List.foldl_nil]
        set s := (List.range k).foldl (passo1Passo df)
          { estado_atual := none, inicio_idx := 0, acc := [] } with hs
        by_cases he : estadoPonto (df.getD k default).velocidade = t
        · -- same state: the step is the identity
          rw [passo1Passo_same df s k t ht he]
          refine ⟨t, ht, ?_⟩
          intro fi t' d e hfi
          exact hcov fi t' d e (by omega)
        · -- state change: close the previous run at index k - 1
          rw [passo1Passo_diff df s k t ht he]
          refine ⟨estadoPonto (df.getD k default).velocidade, rfl, ?_⟩
          intro fi t' d e hfi
          have hprev : cobre 0 (s.acc ++
              [{ tipo := t, inicio_idx := s.inicio_idx, fim_idx := k - 1,
                 data_inicio := horaEm df s.inicio_idx,
                 data_fim := horaEm df (k - 1) }]) k = true := by
            have := hcov (k - 1) t (horaEm df s.inicio_idx) (horaEm df (k - 1)) (by omega)
            have hk' : k - 1 + 1 = k := by omega
            rwa [hk'] at this
          have := cobre_append
            { tipo := t', inicio_idx := k, fim_idx := fi, data_inicio := d, data_fim := e }
            _ 0 k hprev rfl (by simpa using hfi)
          simpa using this

/-- PASSO 1 covers the whole input: its raw periods partition `[0, n)`. -/
theorem periodosBrutos_cobre (df : List Amostra) (h : df ≠ []) :
    cobre 0 (periodosBrutos df) df.length = true := by
  have hlen : 1 ≤ df.length := List.length_pos.mpr h
  obtain ⟨t, ht, hcov⟩ := passo1_inv df df.length hlen
  have key := hcov (df.length - 1) t
    (horaEm df ((List.range df.length).foldl (passo1Passo df)
      { estado_atual := none, inicio_idx := 0, acc := [] }).inicio_idx)
    (horaEm df (df.length - 1)) (by omega)
  have hl : df.length - 1 + 1 = df.length := by omega
  rw [hl] at key
  simp only [periodosBrutos]
  rw [ht]
  exact key

end LemasPasso1

section LemasPasso2

theorem passo2Passo_empty (p : PeriodoBruto) : passo2Passo [] p = [p] := rfl

theorem passo2Passo_some (acc : List PeriodoBruto) (p u : PeriodoBruto)
    (h : acc.getLast? = some u) :
    passo2Passo acc p =
      if duracaoPeriodo p < MIN_DURACAO_PERIODO then
        patchLast (fun q => estenderAte q p) acc
      else if p.data_inicio - u.data_fim ≤ GAP_CONSOLIDACAO ∧ u.tipo = p.tipo then
        patchLast (fun q => estenderAte q p) acc
      else acc ++ [p] := by
  simp only [passo2Passo, h]

theorem passo2_cobre_aux :
    ∀ (inp acc : List PeriodoBruto) (c n : ℕ), cobre 0 acc c = true →
      cobre c inp n = true → cobre 0 (inp.foldl passo2Passo acc) n = true
  | [], acc, c, n, hacc, hinp => by
      simp only [cobre, beq_iff_eq] at hinp
      subst hinp
      simpa using hacc
  | p :: rest, acc, c, n, hacc, hinp => by
      simp only [cobre, Bool.and_eq_true, beq_iff_eq, decide_eq_true_eq] at hinp
      obtain ⟨⟨h1, h2⟩, h3⟩ := hinp
      rw [List.foldl_cons]
      refine passo2_cobre_aux rest (passo2Passo acc p) (p.fim_idx + 1) n ?_ h3
      cases hl : acc.getLast? with
      | none =>
          have hacc0 : acc = [] := List.getLast?_eq_none_iff.mp hl
          subst hacc0
          simp only [cobre, beq_iff_eq] at hacc
          subst hacc
          rw [passo2Passo_empty]
          simp [cobre, h1, h2]
      | some u =>
          have hne : acc ≠ [] := by
            intro hcontra
            subst hcontra
            simp at hl
          rw [passo2Passo_some acc p u hl]
          split
          · exact cobre_patchLast p acc 0 c hacc hne (by omega)
          · split
            · exact cobre_patchLast p acc 0 c hacc hne (by omega)
            · exact cobre_append p acc 0 c hacc h1 h2

end LemasPasso2

section LemasPasso3

theorem passo3_cobre :
    ∀ (l : List PeriodoBruto) (a n : ℕ), cobre a l n = true → cobre a (passo3 l) n = true
  | [], _, _, h => by simpa [passo3] using h
  | [p], a, n, h => by simpa [passo3] using h
  | [p, parada], a, n, h => by
      rw [passo3]
      split
      · exact h
      · rw [passo3]
        exact h
  | p :: parada :: prox :: restoB, a, n, h => by
      have h' : ((p.inicio_idx == a) && (decide (a ≤ p.fim_idx)) &&
          cobre (p.fim_idx + 1) (parada :: prox :: restoB) n) = true := h
      simp only [Bool.and_eq_true, beq_iff_eq, decide_eq_true_eq] at h'
      obtain ⟨⟨h1, h2⟩, h3⟩ := h'
      have h3' : ((parada.inicio_idx == p.fim_idx + 1) &&
          (decide (p.fim_idx + 1 ≤ parada.fim_idx)) &&
          cobre (parada.fim_idx + 1) (prox :: restoB) n) = true := h3
      simp only [Bool.and_eq_true, beq_iff_eq, decide_eq_true_eq] at h3'
      obtain ⟨⟨c1, c2⟩, c3⟩ := h3'
      have h4' : ((prox.inicio_idx == parada.fim_idx + 1) &&
          (decide (parada.fim_idx + 1 ≤ prox.fim_idx)) &&
          cobre (prox.fim_idx + 1) restoB n) = true := c3
      simp only [Bool.and_eq_true, beq_iff_eq, decide_eq_true_eq] at h4'
      obtain ⟨⟨d1, d2⟩, d3⟩ := h4'
      rw [passo3]
      split
      · split
        · apply passo3_cobre
          show ((((estenderAte p prox).inicio_idx == a)) &&
              (decide (a ≤ (estenderAte p prox).fim_idx)) &&
              cobre ((estenderAte p prox).fim_idx + 1) restoB n) = true
          simp only [estenderAte, Bool.and_eq_true, beq_iff_eq, decide_eq_true_eq]
          exact ⟨⟨h1, by omega⟩, d3⟩
        · have htail := passo3_cobre (parada :: prox :: restoB) (p.fim_idx + 1) n h3
          show ((p.inicio_idx == a) && (decide (a ≤ p.fim_idx)) &&
              cobre (p.fim_idx + 1) (passo3 (parada :: prox :: restoB)) n) = true
          simp only [Bool.and_eq_true, beq_iff_eq, decide_eq_true_eq]
          exact ⟨⟨h1, h2⟩, htail⟩
      · have htail := passo3_cobre (parada :: prox :: restoB) (p.fim_idx + 1) n h3
        show ((p.inicio_idx == a) && (decide (a ≤ p.fim_idx)) &&
            cobre (p.fim_idx + 1) (passo3 (parada :: prox :: restoB)) n) = true
        simp only [Bool.and_eq_true, beq_iff_eq, decide_eq_true_eq]
        exact ⟨⟨h1, h2⟩, htail⟩
termination_by l => l.length
decreasing_by all_goals (simp only [List.length_cons]; omega)

theorem passo3_one (p : PeriodoBruto) : passo3 [p] = [p] := by
  rw [passo3]

theorem passo3_two (p q : PeriodoBruto) : passo3 [p, q] = [p, q] := by
  rw [passo3]
  split
  · rfl
  · rw [passo3_one]

/-- The consolidated output of PASSO 1-3 partitions the whole per-vehicle
input: contiguous index ranges starting at 0, ending at the last row, with
no overlap and no gap. -/
theorem periodosFinal_cobre (df : List Amostra) (h : df ≠ []) :
    cobre 0 (periodosFinal df) df.length = true :=
  passo3_cobre _ 0 df.length
    (passo2_cobre_aux (periodosBrutos df) [] 0 df.length rfl (periodosBrutos_cobre df h))

end LemasPasso3

section LemasTamanho

theorem patchLast_length {α : Type} (f : α → α) :
    ∀ l : List α, (patchLast f l).length = l.length
  | [] => rfl
  | [_] => rfl
  | x :: y :: xs => by
      simp only [patchLast, List.length_cons]
      rw [patchLast_length f (y :: xs)]
      simp

theorem passo2Passo_length (acc : List PeriodoBruto) (p : PeriodoBruto) :
    (passo2Passo acc p).length ≤ acc.length + 1 := by
  cases hl : acc.getLast? with
  | none =>
      have hacc : acc = [] := List.getLast?_eq_none_iff.mp hl
      subst hacc
      simp [passo2Passo_empty]
  | some u =>
      rw [passo2Passo_some acc p u hl]
      split
      · rw [patchLast_length]
        omega
      · split
        · rw [patchLast_length]
          omega
        · simp

theorem passo2_aux_length :
    ∀ (inp acc : List PeriodoBruto), (inp.foldl passo2Passo acc).length ≤ acc.length + inp.length
  | [], acc => by simp
  | p :: rest, acc => by
      rw [List.foldl_cons]
      have h1 := passo2_aux_length rest (passo2Passo acc p)
      have h2 := passo2Passo_length acc p
      simp only [List.length_cons]
      omega

theorem passo3_length : ∀ l : List PeriodoBruto, (passo3 l).length ≤ l.length
  | [] => by simp [passo3]
  | [p] => by simp [passo3]
  | [p, parada] => by
      rw [passo3]
      split
      · simp
      · simp [passo3]
  | p :: parada :: prox :: restoB => by
      rw [passo3]
      split
      · split
        · have := passo3_length (estenderAte p prox :: restoB)
          simp only [List.length_cons] at this ⊢
          omega
        · have := passo3_length (parada :: prox :: restoB)
          simp only [List.length_cons] at this ⊢
          omega
      · have := passo3_length (parada :: prox :: restoB)
        simp only [List.length_cons] at this ⊢
        omega
termination_by l => l.length
decreasing_by all_goals (simp only [List.length_cons]; omega)

end LemasTamanho

section LemasPasso4

/-- At the last position, the in-progress skip test is the negation of the
keep condition. -/
theorem emCurso_ultimo (agora : ℤ) (df : List Amostra) (nfinal : ℕ) (p : PeriodoBruto) :
    emCurso agora df nfinal (nfinal - 1) p = !manterUltimo agora df p := by
  have hlt : (agora - horaEm df p.fim_idx < 60) = ¬(60 ≤ agora - horaEm df p.fim_idx) :=
    (propext not_le).symm
  simp only [emCurso, manterUltimo, beq_self_eq_true, Bool.true_and, Bool.not_and, bne,
    Bool.not_not, hlt, decide_not]

/-- The PASSO 4 loop emits every period except the last, which is emitted
exactly when the keep condition holds. -/
theorem passo4_eq (agora : ℤ) (placa : String) (df : List Amostra) (nfinal : ℕ) :
    ∀ (l : List PeriodoBruto) (idx : ℕ) (p : PeriodoBruto),
      idx + l.length = nfinal → l.getLast? = some p →
      passo4 agora placa df nfinal idx l =
        (if manterUltimo agora df p then l else l.dropLast).map (mkResultado placa df)
  | [], _, _, _, hl => by simp at hl
  | [q], idx, p, hn, hl => by
      have hq : q = p := by simpa using hl
      subst hq
      have hidx : idx = nfinal - 1 := by
        simp only [List.length_cons, List.length_nil] at hn
        omega
      rw [passo4, hidx, emCurso_ultimo]
      cases hm : manterUltimo agora df q with
      | false => simp [passo4]
      | true => simp [passo4]
  | q :: r :: resto, idx, p, hn, hl => by
      have hl' : (r :: resto).getLast? = some p := by
        rwa [List.getLast?_cons_cons] at hl
      simp only [List.length_cons] at hn
      have hidx : (idx == nfinal - 1) = false := by
        simp only [beq_eq_false_iff_ne, ne_eq]
        omega
      have hcurso : emCurso agora df nfinal idx q = false := by
        simp only [emCurso, hidx, Bool.false_and]
      rw [passo4, hcurso]
      simp only [Bool.false_eq_true, if_false]
      rw [passo4_eq agora placa df nfinal (r :: resto) (idx + 1) p
        (by simp only [List.length_cons]; omega) hl']
      cases hm : manterUltimo agora df p with
      | true => simp
      | false => simp [List.dropLast_cons₂]

end LemasPasso4

section LemasV6

/-- Patching the last open insert never touches the first insert's start
fields. -/
theorem patchLast_fecharInsercao_cons (t : Amostra) (first : InsercaoV6)
    (resto : List InsercaoV6) :
    ∃ first2 resto2, patchLast (fecharInsercao t) (first :: resto) = first2 :: resto2 ∧
      first2.data_inicio = first.data_inicio ∧ first2.km_inicial = first.km_inicial ∧
      first2.raw_id_inicio = first.raw_id_inicio ∧ first2.local_inicio = first.local_inicio := by
  cases resto with
  | nil => exact ⟨fecharInsercao t first, [], rfl, rfl, rfl, rfl, rfl⟩
  | cons x xs => exact ⟨first, patchLast (fecharInsercao t) (x :: xs), rfl, rfl, rfl, rfl, rfl⟩

/-- A confirmed transition preserves the V6 invariant: it is exactly the
step that closes the database period and opens the matching insert. -/
theorem confirmarTransicao_preserva (n : ℕ) (pt : TipoPeriodo) (t : Amostra) (s : MaquinaV6)
    (h : InvV6 n s) : InvV6 n (confirmarTransicao pt t s) := by
  rcases h with ⟨hc, hu, hi⟩ | ⟨hc, u, hu, hid, first, resto, hi, e1, e2, e3, e4⟩
  · right
    refine ⟨rfl, { id := n, data_fim := t.data_hora, km_final := t.odometro,
                   local_fim := localStr t.latitude t.longitude, raw_id_fim := t.raw_id },
            ?_, rfl, novaInsercao pt t, [], ?_, rfl, rfl, rfl, rfl⟩
    · simp only [confirmarTransicao, hc, hu, List.nil_append]
    · simp only [confirmarTransicao, hc, hi, List.nil_append]
  · right
    obtain ⟨f2, r2, hp, q1, q2, q3, q4⟩ := patchLast_fecharInsercao_cons t first resto
    refine ⟨rfl, u, ?_, hid, f2, r2 ++ [novaInsercao pt t], ?_,
            by rw [q1, e1], by rw [q2, e2], by rw [q3, e3], by rw [q4, e4]⟩
    · simp only [confirmarTransicao, hc, hu]
    · simp only [confirmarTransicao, hc, hi, hp, List.cons_append]

/-- One V6 loop step preserves the invariant. -/
theorem passoV6_preserva (n : ℕ) (s : MaquinaV6) (p : Amostra) (h : InvV6 n s) :
    InvV6 n (passoV6 s p) := by
  simp only [passoV6]
  repeat' split
  any_goals exact h
  all_goals exact confirmarTransicao_preserva n _ _ s h

/-- The whole V6 loop preserves the invariant. -/
theorem foldl_passoV6_preserva (n : ℕ) :
    ∀ (pontos : List Amostra) (s : MaquinaV6), InvV6 n s → InvV6 n (pontos.foldl passoV6 s)
  | [], _, h => h
  | p :: ps, s, h => by
      rw [List.foldl_cons]
      exact foldl_passoV6_preserva n ps (passoV6 s p) (passoV6_preserva n s p h)

/-- Closing the batch keeps the invariant's conclusion: if any insert came
out, the single update closes row `n` and the first insert starts exactly
at its end values. -/
theorem finalizarV6_conclusao (n : ℕ) (a b : Amostra) (s : MaquinaV6) (h : InvV6 n s)
    (first : InsercaoV6) (hf : ((finalizarV6 a b s).2).head? = some first) :
    ∃ u, (finalizarV6 a b s).1 = [u] ∧ u.id = n ∧ first.data_inicio = u.data_fim ∧
      first.km_inicial = u.km_final ∧ first.raw_id_inicio = u.raw_id_fim ∧
      first.local_inicio = u.local_fim := by
  rcases h with ⟨hc, hu, hi⟩ | ⟨hc, u, hu, hid, f0, resto, hi, e1, e2, e3, e4⟩
  · rw [finalizarV6] at hf
    rw [hc] at hf
    simp only [hi] at hf
    simp at hf
  · obtain ⟨f2, r2, hp, q1, q2, q3, q4⟩ := patchLast_fecharInsercao_cons b f0 resto
    rw [finalizarV6] at hf ⊢
    rw [hc] at hf ⊢
    simp only [hi, hp, List.head?_cons, Option.some.injEq] at hf
    simp only [hi, hp]
    subst hf
    exact ⟨u, hu, hid, by rw [q1, e1], by rw [q2, e2], by rw [q3, e3], by rw [q4, e4]⟩

end LemasV6

section LemasConsolidacao

theorem coletarGrupo_resto_length :
    ∀ (l : List Deslocamento) (t : ℤ) (a u : Deslocamento),
      ((coletarGrupo t a u l).2).length ≤ l.length
  | [], _, _, _ => by simp [coletarGrupo]
  | x :: xs, t, a, u => by
      rw [coletarGrupo]
      split
      · exact le_trans (coletarGrupo_resto_length xs t a x) (Nat.le_succ _)
      · simp

theorem consolidarPeriodosConsecutivos_length :
    ∀ (t : ℤ) (l : List Deslocamento),
      (consolidarPeriodosConsecutivos t l).length ≤ l.length
  | _, [] => by simp [consolidarPeriodosConsecutivos]
  | t, reg :: resto => by
      simp only [consolidarPeriodosConsecutivos]
      have h2 := consolidarPeriodosConsecutivos_length t (coletarGrupo t reg reg resto).2
      have h1 := coletarGrupo_resto_length resto t reg reg
      simp only [List.length_cons]
      omega
termination_by t l => l.length
decreasing_by
  simp only [List.length_cons]
  exact Nat.lt_succ_of_le (coletarGrupo_resto_length resto t reg reg)

end LemasConsolidacao

section LemasMaximo

theorem le_foldl_max : ∀ (l : List ℕ) (a : ℕ), a ≤ l.foldl Nat.max a
  | [], a => le_refl a
  | x :: xs, a => le_trans (Nat.le_max_left a x) (le_foldl_max xs (Nat.max a x))

theorem mem_le_foldl_max : ∀ (l : List ℕ) (a x : ℕ), x ∈ l → x ≤ l.foldl Nat.max a
  | [], _, _, h => by simp at h
  | y :: ys, a, x, h => by
      rw [List.foldl_cons]
      rcases List.mem_cons.mp h with rfl | hmem
      · exact le_trans (Nat.le_max_right a x) (le_foldl_max ys (Nat.max a x))
      · exact mem_le_foldl_max ys (Nat.max a y) x hmem

theorem foldl_max_eq_or_mem : ∀ (l : List ℕ) (a : ℕ),
    l.foldl Nat.max a = a ∨ l.foldl Nat.max a ∈ l
  | [], _ => Or.inl rfl
  | y :: ys, a => by
      rw [List.foldl_cons]
      rcases foldl_max_eq_or_mem ys (Nat.max a y) with h | h
      · rw [h]
        rcases Nat.le_total a y with h2 | h2
        · refine Or.inr ?_
          have h3 : a.max y = y :=
            Nat.le_antisymm (Nat.max_le.mpr ⟨h2, Nat.le_refl y⟩) (Nat.le_max_right a y)
          rw [h3]
          exact List.mem_cons_self y ys
        · exact Or.inl
            (Nat.le_antisymm (Nat.max_le.mpr ⟨Nat.le_refl a, h2⟩) (Nat.le_max_left a y))
      · exact Or.inr (List.mem_cons_of_mem y h)

end LemasMaximo

section LemasPOI

theorem procurarPOI_nenhum (lat_r lon_r : ℚ) :
    ∀ l : List (String × List (ℚ × ℚ)),
      (∀ par ∈ l, ∀ c ∈ par.2,
        ¬(|lat_r - c.1| < POI_RADIUS ∧ |lon_r - c.2| < POI_RADIUS)) →
      procurarPOI lat_r lon_r l = none
  | [], _ => rfl
  | par :: resto, h => by
      rw [procurarPOI]
      have hcond : (par.2.any (fun c =>
          decide (|lat_r - c.1| < POI_RADIUS) && decide (|lon_r - c.2| < POI_RADIUS))) = false := by
        rw [List.any_eq_false]
        intro c hc
        have hnao := h par (List.mem_cons_self _ _) c hc
        simp only [Bool.and_eq_true, decide_eq_true_eq]
        exact hnao
      rw [hcond]
      simp only [Bool.false_eq_true, if_false]
      exact procurarPOI_nenhum lat_r lon_r resto
        (fun q hq => h q (List.mem_cons_of_mem _ hq))

end LemasPOI

section Claims

/-- C1 counterexample: on a single-sample batch the emitted output of
`classificar_deslocamentos_v5` is empty — the lone sample is withheld as
in-progress (its raw id is the batch maximum), so the emitted periods do
NOT partition the input, contrary to the claim as stated. -/
theorem c1_contraexemplo :
    resultadosV5 1000 "AAA" [amostraUnica] = [] ∧
    cobre 0 ((resultadosV5 1000 "AAA" [amostraUnica]).map periodoDoResultado)
      [amostraUnica].length = false := by
  have hb : passo2 (periodosBrutos [amostraUnica]) =
      [{ tipo := PARADA, inicio_idx := 0, fim_idx := 0, data_inicio := 0, data_fim := 0 }] := by
    decide
  have hf : periodosFinal [amostraUnica] =
      [{ tipo := PARADA, inicio_idx := 0, fim_idx := 0, data_inicio := 0, data_fim := 0 }] := by
    rw [periodosFinal, hb, passo3_one]
  have hr : resultadosV5 1000 "AAA" [amostraUnica] = [] := by
    rw [resultadosV5, hf]
    decide
  exact ⟨hr, by rw [hr]; rfl⟩

/-- C1 (amended): for every non-empty single-vehicle sample sequence, the
CONSOLIDATED period list of `classificar_deslocamentos_v5` (PASSO 1-3,
before the PASSO 4 in-progress hold-back) partitions the input exactly:
index ranges are contiguous from 0 to the last row, every sample belongs to
exactly one period, none is omitted or duplicated, and no two periods
overlap.  The emitted output omits only the withheld trailing period (see
the C5 theorem).  Timestamp ordering is not even needed for this
index-partition property. -/
theorem c1_corrigido (df : List Amostra) (h : df ≠ []) :
    cobre 0 (periodosFinal df) df.length = true :=
  periodosFinal_cobre df h

/-- Witness for C1 at a concrete one-sample input. -/
theorem c1_corrigido_witness :
    ([amostraUnica] ≠ ([] : List Amostra)) ∧
    cobre 0 (periodosFinal [amostraUnica]) [amostraUnica].length = true :=
  ⟨by simp, c1_corrigido [amostraUnica] (by simp)⟩

/-- C2 counterexample: with AAA committed up to raw id 10 and BBB up to
100, `obter_ultimo_raw_id_processado` returns the GLOBAL maximum 100, not
AAA's own 10, and the subsequent load drops AAA's sample 50 even though it
is strictly beyond AAA's own cursor — the claim's per-vehicle cursor
contract fails on the code. -/
theorem c2_contraexemplo :
    obterUltimoRawIdProcessado bancoDoisVeiculos = 100 ∧
    lastProcessedCursorSpec "AAA" bancoDoisVeiculos = 10 ∧
    obterUltimoRawIdProcessado bancoDoisVeiculos ≠
      lastProcessedCursorSpec "AAA" bancoDoisVeiculos ∧
    lastProcessedCursorSpec "AAA" bancoDoisVeiculos < amostraIntermediaria.raw_id ∧
    carregarNovasAmostras (obterUltimoRawIdProcessado bancoDoisVeiculos)
      [amostraIntermediaria] = [] := by
  refine ⟨rfl, rfl, by decide, by decide, rfl⟩

/-- C2 (amended): the resume cursor is a single GLOBAL value — the highest
committed raw_id_fim across ALL vehicles' periods (0 if none): it bounds
every committed raw_id_fim and is attained by one of them when nonzero.
The sample load returns exactly the samples with id strictly greater than
the given cursor, sorted by (vehicle, timestamp). -/
theorem c2_corrigido :
    (∀ (banco : List Deslocamento) (d : Deslocamento) (i : ℕ),
        d ∈ banco → d.raw_id_fim = some i → i ≤ obterUltimoRawIdProcessado banco) ∧
    (∀ banco : List Deslocamento, obterUltimoRawIdProcessado banco = 0 ∨
        ∃ d ∈ banco, d.raw_id_fim = some (obterUltimoRawIdProcessado banco)) ∧
    (∀ (c : ℕ) (posicoes : List Amostra) (p : Amostra),
        p ∈ carregarNovasAmostras c posicoes ↔ p ∈ posicoes ∧ c < p.raw_id) ∧
    (∀ (c : ℕ) (posicoes : List Amostra),
        (carregarNovasAmostras c posicoes).Sorted ordemCarga) := by
  refine ⟨?_, ?_, ?_, ?_⟩
  · intro banco d i hd hi
    exact mem_le_foldl_max _ 0 i (List.mem_filterMap.mpr ⟨d, hd, hi⟩)
  · intro banco
    rcases foldl_max_eq_or_mem (banco.filterMap fun d => d.raw_id_fim) 0 with h | h
    · exact Or.inl h
    · obtain ⟨d, hd, hfd⟩ := List.mem_filterMap.mp h
      exact Or.inr ⟨d, hd, hfd⟩
  · intro c posicoes p
    simp [carregarNovasAmostras, List.mem_insertionSort, List.mem_filter]
  · intro c posicoes
    exact List.sorted_insertionSort ordemCarga _

/-- Witness for C2 at the concrete two-vehicle store. -/
theorem c2_corrigido_witness :
    (10 ≤ obterUltimoRawIdProcessado bancoDoisVeiculos) ∧
    (amostraIntermediaria ∈ carregarNovasAmostras 10 [amostraIntermediaria] ↔
      amostraIntermediaria ∈ [amostraIntermediaria] ∧ 10 < amostraIntermediaria.raw_id) :=
  ⟨c2_corrigido.1 bancoDoisVeiculos deslocamentoBase 10 (by simp [bancoDoisVeiculos]) rfl,
   c2_corrigido.2.2.1 10 [amostraIntermediaria] amostraIntermediaria⟩

/-- C3 counterexample: a MOVEMENT insert whose odometer fell from 1050 to
980 is stored with distance −70 < 0 and plain status 'PENDENTE' — no
clamping to 0 and no ODOMETER_RESET marker, contrary to the claim. -/
theorem c3_contraexemplo :
    distanciaInsercao insercaoComReset = -70 ∧
    distanciaInsercao insercaoComReset < 0 ∧
    statusInsercao insercaoComReset ≠ "ODOMETER_RESET" := by
  refine ⟨rfl, by decide, by decide⟩

/-- C3 (amended): the stored distance of a committed period is the bare
difference km_final − km_inicial, negative whenever the odometer decreased,
and every inserted period carries status 'PENDENTE' — the schema has no
odometer-reset marker. -/
theorem c3_corrigido (ins : InsercaoV6) (kf : ℤ) (h : ins.km_final = some kf) :
    distanciaInsercao ins = kf - ins.km_inicial ∧ statusInsercao ins = "PENDENTE" := by
  constructor
  · simp only [distanciaInsercao, h]
  · rfl

/-- Witness for C3 at the concrete reset insert. -/
theorem c3_corrigido_witness :
    insercaoComReset.km_final = some 980 ∧
    distanciaInsercao insercaoComReset = 980 - insercaoComReset.km_inicial ∧
    statusInsercao insercaoComReset = "PENDENTE" :=
  ⟨rfl, (c3_corrigido insercaoComReset 980 rfl).1, (c3_corrigido insercaoComReset 980 rfl).2⟩

/-- C4 counterexample: the concrete scenario — a 2-minute MOVEMENT burst
(rows 0-1) immediately followed by a 40-minute STOP (rows 2-3) — yields TWO
periods, the 2-minute movement kept as-is, not one 42-minute STOP: the
first period is never merged into its following neighbor. -/
theorem c4_contraexemplo :
    periodosFinal dfCenario3 =
      [{ tipo := MOVIMENTO, inicio_idx := 0, fim_idx := 1, data_inicio := 0, data_fim := 2 },
       { tipo := PARADA, inicio_idx := 2, fim_idx := 3, data_inicio := 3, data_fim := 43 }] ∧
    (periodosFinal dfCenario3).length ≠ 1 := by
  have hb : passo2 (periodosBrutos dfCenario3) =
      [{ tipo := MOVIMENTO, inicio_idx := 0, fim_idx := 1, data_inicio := 0, data_fim := 2 },
       { tipo := PARADA, inicio_idx := 2, fim_idx := 3, data_inicio := 3, data_fim := 43 }] := by
    decide
  have hf : periodosFinal dfCenario3 =
      [{ tipo := MOVIMENTO, inicio_idx := 0, fim_idx := 1, data_inicio := 0, data_fim := 2 },
       { tipo := PARADA, inicio_idx := 2, fim_idx := 3, data_inicio := 3, data_fim := 43 }] := by
    rw [periodosFinal, hb, passo3_two]
  exact ⟨hf, by rw [hf]; decide⟩

/-- C4 (amended): a period shorter than MIN_DURACAO_PERIODO is merged into
the immediately preceding period (extending its end boundary) — but only
when a preceding period exists; the very first period is appended
unconditionally and is never merged into the following neighbor.  Hence the
2-minute burst + 40-minute stop scenario consolidates to itself (two
periods), not to a single 42-minute stop. -/
theorem c4_corrigido :
    (∀ (acc : List PeriodoBruto) (u p : PeriodoBruto), acc.getLast? = some u →
      duracaoPeriodo p < MIN_DURACAO_PERIODO →
      passo2Passo acc p = patchLast (fun q => estenderAte q p) acc) ∧
    (∀ p : PeriodoBruto, passo2Passo [] p = [p]) ∧
    consolidarV5
      [{ tipo := MOVIMENTO, inicio_idx := 0, fim_idx := 1, data_inicio := 0, data_fim := 2 },
       { tipo := PARADA, inicio_idx := 2, fim_idx := 3, data_inicio := 3, data_fim := 43 }] =
      [{ tipo := MOVIMENTO, inicio_idx := 0, fim_idx := 1, data_inicio := 0, data_fim := 2 },
       { tipo := PARADA, inicio_idx := 2, fim_idx := 3, data_inicio := 3, data_fim := 43 }] := by
  refine ⟨?_, fun p => rfl, ?_⟩
  · intro acc u p hl hd
    rw [passo2Passo_some acc p u hl, if_pos hd]
  · rw [consolidarV5]
    have hb : passo2
        [{ tipo := MOVIMENTO, inicio_idx := 0, fim_idx := 1, data_inicio := 0, data_fim := 2 },
         { tipo := PARADA, inicio_idx := 2, fim_idx := 3, data_inicio := 3, data_fim := 43 }] =
        [{ tipo := MOVIMENTO, inicio_idx := 0, fim_idx := 1, data_inicio := 0, data_fim := 2 },
         { tipo := PARADA, inicio_idx := 2, fim_idx := 3, data_inicio := 3, data_fim := 43 }] := by
      decide
    rw [hb, passo3_two]

/-- Witness for C4: a short (2-minute) period following a 40-minute stop is
merged into it by extending its end. -/
theorem c4_corrigido_witness :
    passo2Passo [{ tipo := PARADA, inicio_idx := 0, fim_idx := 3, data_inicio := 0, data_fim := 40 }]
        { tipo := MOVIMENTO, inicio_idx := 4, fim_idx := 5, data_inicio := 41, data_fim := 43 } =
      patchLast
        (fun q => estenderAte q
          { tipo := MOVIMENTO, inicio_idx := 4, fim_idx := 5, data_inicio := 41, data_fim := 43 })
        [{ tipo := PARADA, inicio_idx := 0, fim_idx := 3, data_inicio := 0, data_fim := 40 }] :=
  c4_corrigido.1
    [{ tipo := PARADA, inicio_idx := 0, fim_idx := 3, data_inicio := 0, data_fim := 40 }]
    { tipo := PARADA, inicio_idx := 0, fim_idx := 3, data_inicio := 0, data_fim := 40 }
    { tipo := MOVIMENTO, inicio_idx := 4, fim_idx := 5, data_inicio := 41, data_fim := 43 }
    rfl (by decide)

/-- C5 counterexample: a batch whose single stop period ended 198 minutes
before the run (far beyond the claimed 30-minute grace) is still NOT
persisted: its last raw id is the batch maximum, and the code requires BOTH
a 60-minute age AND a newer raw id, not the claimed disjunction with a
30-minute grace. -/
theorem c5_contraexemplo :
    TEMPO_PERIODO_EM_CURSO < 200 - horaEm dfDoisPontos 1 ∧
    periodosFinal dfDoisPontos =
      [{ tipo := PARADA, inicio_idx := 0, fim_idx := 1, data_inicio := 0, data_fim := 2 }] ∧
    resultadosV5 200 "AAA" dfDoisPontos = [] := by
  have hb : passo2 (periodosBrutos dfDoisPontos) =
      [{ tipo := PARADA, inicio_idx := 0, fim_idx := 1, data_inicio := 0, data_fim := 2 }] := by
    decide
  have hf : periodosFinal dfDoisPontos =
      [{ tipo := PARADA, inicio_idx := 0, fim_idx := 1, data_inicio := 0, data_fim := 2 }] := by
    rw [periodosFinal, hb, passo3_one]
  refine ⟨by decide, hf, ?_⟩
  rw [resultadosV5, hf]
  decide

/-- C5 (amended): the emitted output is the consolidated list with the
final period dropped unless it is kept, and the final period is kept (and
only then persisted) exactly when it ended at least 60 minutes — a literal
hardcoded at processor.py:352, not `TEMPO_PERIODO_EM_CURSO` = 30 — before
the run AND a newer raw sample exists beyond it in the batch (a
conjunction, not the claimed disjunction). -/
theorem c5_corrigido (agora : ℤ) (placa : String) (df : List Amostra) (p : PeriodoBruto)
    (h : (periodosFinal df).getLast? = some p) :
    resultadosV5 agora placa df =
      (if manterUltimo agora df p then periodosFinal df
       else (periodosFinal df).dropLast).map (mkResultado placa df) :=
  passo4_eq agora placa df (periodosFinal df).length (periodosFinal df) 0 p (by simp) h

/-- Witness for C5 at the concrete two-sample batch. -/
theorem c5_corrigido_witness :
    (periodosFinal dfDoisPontos).getLast? =
      some { tipo := PARADA, inicio_idx := 0, fim_idx := 1, data_inicio := 0, data_fim := 2 } ∧
    resultadosV5 200 "AAA" dfDoisPontos =
      (if manterUltimo 200 dfDoisPontos
          { tipo := PARADA, inicio_idx := 0, fim_idx := 1, data_inicio := 0, data_fim := 2 } then
        periodosFinal dfDoisPontos
       else (periodosFinal dfDoisPontos).dropLast).map (mkResultado "AAA" dfDoisPontos) := by
  have hb : passo2 (periodosBrutos dfDoisPontos) =
      [{ tipo := PARADA, inicio_idx := 0, fim_idx := 1, data_inicio := 0, data_fim := 2 }] := by
    decide
  have hf : periodosFinal dfDoisPontos =
      [{ tipo := PARADA, inicio_idx := 0, fim_idx := 1, data_inicio := 0, data_fim := 2 }] := by
    rw [periodosFinal, hb, passo3_one]
  have hl : (periodosFinal dfDoisPontos).getLast? =
      some { tipo := PARADA, inicio_idx := 0, fim_idx := 1, data_inicio := 0, data_fim := 2 } := by
    rw [hf]
    rfl
  exact ⟨hl, c5_corrigido 200 "AAA" dfDoisPontos
    { tipo := PARADA, inicio_idx := 0, fim_idx := 1, data_inicio := 0, data_fim := 2 } hl⟩

/-- C6 (confirmed): when an incremental V6 run continues from a previously
open database period (id = n) and the vehicle's state change is confirmed,
the run emits exactly one update closing period n, and the first newly
opened period starts exactly where the old one ended: same start_time =
end_time, same odometer, same raw-sample id (and the same place string) —
zero gap, zero overlap. -/
theorem c6_confirmado (df : List Amostra) (e : EstadoV6) (n : ℕ) (he : e.id = some n)
    (upds : List AtualizacaoV6) (ins : List InsercaoV6) (r : Option EstadoV6)
    (hcl : classificarDeslocamentosV6Persistente df (some e) = (upds, ins, r))
    (first : InsercaoV6) (hf : ins.head? = some first) :
    ∃ u, upds = [u] ∧ u.id = n ∧ first.data_inicio = u.data_fim ∧
      first.km_inicial = u.km_final ∧ first.raw_id_inicio = u.raw_id_fim ∧
      first.local_inicio = u.local_fim := by
  cases df with
  | nil =>
      simp only [classificarDeslocamentosV6Persistente] at hcl
      injection hcl with h1 hrest
      injection hrest with h2 h3
      rw [← h2] at hf
      simp at hf
  | cons d ds =>
      simp only [classificarDeslocamentosV6Persistente] at hcl
      injection hcl with h1 hrest
      injection hrest with h2 h3
      have hinv : InvV6 n ((List.insertionSort ordemData (d :: ds)).foldl passoV6
          { updates := [], inserts := [], current_state_type := e.tipo,
            current_db_id := e.id, transition_buffer := [] }) :=
        foldl_passoV6_preserva n _ _ (Or.inl ⟨he, rfl, rfl⟩)
      rw [← h2] at hf
      obtain ⟨u, hu1, hu2, hu3, hu4, hu5, hu6⟩ :=
        finalizarV6_conclusao n ((List.insertionSort ordemData (d :: ds)).headD d)
          ((List.insertionSort ordemData (d :: ds)).getLastD d) _ hinv first hf
      exact ⟨u, by rw [← h1]; exact hu1, hu2, hu3, hu4, hu5, hu6⟩

/-- Witness for C6: from an open stop period (row 7), two moving pings six
minutes apart confirm the transition; the closing update and the opened
movement share timestamp 0, odometer 100 and raw id 11. -/
theorem c6_confirmado_witness :
    ∃ u, ([{ id := 7, data_fim := 0, km_final := 100, local_fim := "1, 2",
             raw_id_fim := 11 }] : List AtualizacaoV6) = [u] ∧ u.id = 7 ∧
      (0 : ℤ) = u.data_fim ∧ (100 : ℤ) = u.km_final ∧ (11 : ℕ) = u.raw_id_fim ∧
      "1, 2" = u.local_fim :=
  c6_confirmado dfV6Exemplo estadoBancoExemplo 7 rfl
    [{ id := 7, data_fim := 0, km_final := 100, local_fim := "1, 2", raw_id_fim := 11 }]
    [{ tipo := MOVIMENTO, data_inicio := 0, km_inicial := 100, local_inicio := "1, 2",
       raw_id_inicio := 11, data_fim := some 6, km_final := some 105,
       local_fim := some "3, 4", raw_id_fim := some 12 }]
    (some { id := none, tipo := MOVIMENTO }) (by decide)
    { tipo := MOVIMENTO, data_inicio := 0, km_inicial := 100, local_inicio := "1, 2",
      raw_id_inicio := 11, data_fim := some 6, km_final := some 105,
      local_fim := some "3, 4", raw_id_fim := some 12 } rfl

/-- C7 (confirmed): with the default threshold 3 km/h, a sample's
instantaneous state is MOVEMENT exactly when its speed is present and at
least the threshold, it is always one of MOVEMENT/STOP (total, never an
error), a missing speed is treated as 0 and classified STOP, and the V6
per-point test agrees with the V5 one on every input. -/
theorem c7_confirmado :
    VELOCIDADE_MOVIMENTO = 3 ∧
    ∀ v : Option ℤ,
      (estadoPonto v = MOVIMENTO ↔ ∃ x, v = some x ∧ VELOCIDADE_MOVIMENTO ≤ x) ∧
      (estadoPonto v = MOVIMENTO ∨ estadoPonto v = PARADA) ∧
      estadoPonto none = PARADA ∧
      estadoPontoV6 v = estadoPonto v := by
  refine ⟨rfl, ?_⟩
  intro v
  cases v with
  | none =>
      refine ⟨?_, Or.inr (by decide), by decide, by decide⟩
      constructor
      · intro hc
        exact absurd hc (by decide)
      · rintro ⟨x, hx, _⟩
        exact absurd hx (by simp)
  | some x =>
      by_cases h : VELOCIDADE_MOVIMENTO ≤ x
      · have he : estadoPonto (some x) = MOVIMENTO := by
          simp [estadoPonto, vOr0, h]
        have he6 : estadoPontoV6 (some x) = MOVIMENTO := by
          simp [estadoPontoV6, velGe, h]
        exact ⟨⟨fun _ => ⟨x, rfl, h⟩, fun _ => he⟩, Or.inl he, by decide, by rw [he6, he]⟩
      · have he : estadoPonto (some x) = PARADA := by
          simp [estadoPonto, vOr0, h]
        have he6 : estadoPontoV6 (some x) = PARADA := by
          simp [estadoPontoV6, velGe, h]
        refine ⟨?_, Or.inr he, by decide, by rw [he6, he]⟩
        constructor
        · intro hc
          rw [he] at hc
          exact absurd hc (by decide)
        · rintro ⟨y, hy, hxy⟩
          injection hy with hy
          subst hy
          exact absurd hxy h

/-- C8 counterexample: a period with status 'PROCESSADO' (linked to Trip 7)
does not survive `limpar_e_reprocessar`: the DELETE has no WHERE clause, so
the PROCESSED period is removed, contrary to the claim. -/
theorem c8_contraexemplo :
    deslocamentoProcessado.status = "PROCESSADO" ∧
    deslocamentoProcessado ∈ [deslocamentoProcessado] ∧
    deslocamentoProcessado ∉ limparTodosDeslocamentos [deslocamentoProcessado] := by
  refine ⟨rfl, by simp, by simp [limparTodosDeslocamentos]⟩

/-- C8 (amended): the administrative full reprocess deletes ALL periods —
PENDENTE and PROCESSADO alike, including those linked to a Trip — before
reprocessing from scratch: nothing remains in storage. -/
theorem c8_corrigido : ∀ banco : List Deslocamento, limparTodosDeslocamentos banco = [] := by
  intro banco
  simp [limparTodosDeslocamentos]

/-- C9 (confirmed): both consolidation passes only merge or keep periods —
the V5 in-memory pass (PASSO 2 + PASSO 3) and the persisted
`consolidar_periodos_consecutivos` pass each return a list no longer than
their input, for every input. -/
theorem c9_confirmado :
    ∀ (l : List PeriodoBruto) (tol : ℤ) (regs : List Deslocamento),
      (consolidarV5 l).length ≤ l.length ∧
      (consolidarPeriodosConsecutivos tol regs).length ≤ regs.length := by
  intro l tol regs
  constructor
  · exact le_trans (passo3_length (passo2 l)) (by simpa using passo2_aux_length l [])
  · exact consolidarPeriodosConsecutivos_length tol regs

set_option maxHeartbeats 1000000 in
/-- C10 (confirmed): the place resolver is a total function returning a
string on every input: the fixed string for non-numeric input, the first
matching POI name when the rounded coordinate falls inside a
point-of-interest box, and the rounded-coordinate string whenever the
external geocoder is unavailable, errors out or returns nothing. -/
theorem c10_confirmado (geo : ℚ → ℚ → Option EnderecoGeo) :
    get_cached_city_name geo CoordEntrada.invalida = "Coordenadas Inválidas" ∧
    (∀ (lat lon : ℚ) (nome : String),
      procurarPOI (round3 lat) (round3 lon) POIS_NUPORANGA = some nome →
      get_cached_city_name geo (CoordEntrada.valida lat lon) = nome) ∧
    (∀ lat lon : ℚ, procurarPOI (round3 lat) (round3 lon) POIS_NUPORANGA = none →
      geo (round3 lat) (round3 lon) = none →
      get_cached_city_name geo (CoordEntrada.valida lat lon) =
        localStr (round3 lat) (round3 lon)) := by
  refine ⟨rfl, ?_, ?_⟩
  · intro lat lon nome h
    show cityNameLookup geo (round3 lat) (round3 lon) = nome
    unfold cityNameLookup
    rw [h]
  · intro lat lon h hg
    show cityNameLookup geo (round3 lat) (round3 lon) = localStr (round3 lat) (round3 lon)
    unfold cityNameLookup
    rw [h, hg]

/-- Witness for C10: the Base Nuporanga POI is found at its own rounded
coordinate, and (0, 0) with no geocoder degrades to the coordinate string. -/
theorem c10_confirmado_witness :
    get_cached_city_name (fun _ _ => none)
      (CoordEntrada.valida (-20.722612) (-47.751135)) = "Base Nuporanga (Andrioni)" ∧
    get_cached_city_name (fun _ _ => none) (CoordEntrada.valida 0 0) =
      localStr (round3 0) (round3 0) := by
  have hr1 : round3 (-20.722612) = -20723 / 1000 := by
    rw [round3]
    rw [show (⌊(-20.722612 : ℚ) * 1000 + 1 / 2⌋ : ℤ) = -20723 from by
      rw [Int.floor_eq_iff]
      constructor <;> norm_num]
    norm_num
  have hr2 : round3 (-47.751135) = -47751 / 1000 := by
    rw [round3]
    rw [show (⌊(-47.751135 : ℚ) * 1000 + 1 / 2⌋ : ℤ) = -47751 from by
      rw [Int.floor_eq_iff]
      constructor <;> norm_num]
    norm_num
  have hr0 : round3 0 = 0 := by
    rw [round3]
    rw [show (⌊(0 : ℚ) * 1000 + 1 / 2⌋ : ℤ) = 0 from by
      rw [Int.floor_eq_iff]
      constructor <;> norm_num]
    norm_num
  have hpoi : procurarPOI (-20723 / 1000) (-47751 / 1000) POIS_NUPORANGA =
      some "Base Nuporanga (Andrioni)" := by
    rw [POIS_NUPORANGA, procurarPOI]
    split
    · rfl
    · rename_i hfalse
      exfalso
      apply hfalse
      simp only [List.any_cons, List.any_nil, Bool.or_false, Bool.and_eq_true,
        decide_eq_true_eq]
      constructor <;> (rw [POI_RADIUS, abs_lt]; constructor <;> norm_num)
  have hnone : procurarPOI 0 0 POIS_NUPORANGA = none := by
    apply procurarPOI_nenhum
    intro par hpar c hc
    fin_cases hpar <;> fin_cases hc <;>
      (rw [POI_RADIUS]; rintro ⟨h1, h2⟩; rw [abs_lt] at h1; norm_num at h1)
  constructor
  · exact (c10_confirmado (fun _ _ => none)).2.1 (-20.722612) (-47.751135)
      "Base Nuporanga (Andrioni)" (by rw [hr1, hr2]; exact hpoi)
  · exact (c10_confirmado (fun _ _ => none)).2.2 0 0 (by rw [hr0]; exact hnone) rfl

end Claims

end Conciliador
